import Mathlib

/-!
Verification of the ecommerce data pipeline
(`dags/eccomerce_pipeline_dag.py` and `scripts/generate_fake_data.py`).

The Python task functions and the Snowflake SQL statements of the DAG are
shallowly embedded as executable Lean definitions: tables are lists of rows
with nullable columns (`Option`), SQL expressions/aggregates follow SQL
three-valued and null-ignoring semantics, prices are exact decimals (`ℚ`).
-/

namespace Pipeline

/-! ## String primitives: Python `in`, Snowflake TRIM / UPPER / LOWER / INITCAP -/

/-- `listPrefixB n h`: the char list `n` is a leading segment of `h`. -/
def listPrefixB : List Char → List Char → Bool
  | [], _ => true
  | _ :: _, [] => false
  | a :: as, b :: bs => a == b && listPrefixB as bs

/-- `listContainsB n h`: the char list `n` occurs contiguously inside `h`
(the semantics of Python's `in` on strings). -/
def listContainsB (needle : List Char) : List Char → Bool
  | [] => needle.isEmpty
  | c :: cs => listPrefixB needle (c :: cs) || listContainsB needle cs

/-- `strContains needle hay`: Python's `needle in hay` on strings. -/
def strContains (needle hay : String) : Bool :=
  listContainsB needle.data hay.data

/-- Snowflake `TRIM` with default characters: strip leading and trailing blanks. -/
def sqlTrim (s : String) : String :=
  ⟨((s.data.dropWhile (· == ' ')).reverse.dropWhile (· == ' ')).reverse⟩

/-- Snowflake `UPPER`. -/
def sqlUpper (s : String) : String := ⟨s.data.map Char.toUpper⟩

/-- Snowflake `LOWER`. -/
def sqlLower (s : String) : String := ⟨s.data.map Char.toLower⟩

/-- Core of Snowflake `INITCAP`: uppercase each letter that follows a
non-alphanumeric character (or starts the string), lowercase other letters.
The `Bool` argument tells whether the previous character was alphanumeric. -/
def initcapGo : Bool → List Char → List Char
  | _, [] => []
  | prevAlnum, c :: cs =>
      (if c.isAlpha then (if prevAlnum then c.toLower else c.toUpper) else c)
        :: initcapGo c.isAlphanum cs

/-- Snowflake `INITCAP`. -/
def sqlInitcap (s : String) : String := ⟨initcapGo false s.data⟩

/-- Python's `", ".join(issues)`. -/
def joinComma : List String → String
  | [] => ""
  | [a] => a
  | a :: b :: rest => a ++ ", " ++ joinComma (b :: rest)

/-! ## Row types (nullable columns as in the warehouse tables) -/

/-- A row of `raw.customers` and of `silver.customers_clean`. -/
structure CustomerRow where
  customer_id : Option Int
  name : Option String
  country : Option String
  email : Option String
deriving DecidableEq

/-- A row of `raw.products` and of `silver.products_clean`. -/
structure ProductRow where
  product_id : Option Int
  name : Option String
  category : Option String
  price : Option ℚ
deriving DecidableEq

/-- A row of `raw.sales`. -/
structure SaleRow where
  sale_id : Option Int
  customer_id : Option Int
  product_id : Option Int
  quantity : Option Int
  sale_date : Option String
deriving DecidableEq

/-- A row of `silver.sales_enriched`. -/
structure EnrichedRow where
  sale_id : Option Int
  sale_date : Option String
  customer_id : Option Int
  customer_name : Option String
  country : Option String
  product_id : Option Int
  product_name : Option String
  category : Option String
  quantity : Option Int
  total_amount : Option ℚ
deriving DecidableEq

/-- SQL equality in a join condition (`s.customer_id = c.customer_id`):
NULL compared with anything is not a match. -/
def optEqInt : Option Int → Option Int → Bool
  | some x, some y => x == y
  | _, _ => false

/-! ## Decimal rounding: Snowflake `ROUND(price, 2)` (half away from zero) -/

/-- Round a rational to the nearest integer, halves away from zero
(Snowflake's `ROUND` rule). -/
def roundHalfAway (q : ℚ) : ℤ :=
  if 0 ≤ q then ⌊q + 1/2⌋ else -⌊(-q) + 1/2⌋

/-- Snowflake `ROUND(x, 2)`. -/
def round2 (q : ℚ) : ℚ := (roundHalfAway (q * 100) : ℚ) / 100

/-! ## Silver transform (task `transform_to_silver`, SQL in the DAG) -/

/-- Projection of the `customers_clean` SELECT:
`customer_id, INITCAP(TRIM(name)), UPPER(TRIM(country)), LOWER(TRIM(email))`. -/
def normalizeCustomer (r : CustomerRow) : CustomerRow :=
  { customer_id := r.customer_id
    name := r.name.map (fun s => sqlInitcap (sqlTrim s))
    country := r.country.map (fun s => sqlUpper (sqlTrim s))
    email := r.email.map (fun s => sqlLower (sqlTrim s)) }

/-- `CREATE OR REPLACE TABLE silver.customers_clean AS SELECT DISTINCT ...
FROM raw.customers WHERE customer_id IS NOT NULL AND email IS NOT NULL`. -/
def customers_clean (raw : List CustomerRow) : List CustomerRow :=
  ((raw.filter (fun r => r.customer_id.isSome && r.email.isSome)).map
    normalizeCustomer).dedup

/-- Projection of the `products_clean` SELECT:
`product_id, INITCAP(TRIM(name)), INITCAP(TRIM(category)), ROUND(price, 2)`. -/
def normalizeProduct (r : ProductRow) : ProductRow :=
  { product_id := r.product_id
    name := r.name.map (fun s => sqlInitcap (sqlTrim s))
    category := r.category.map (fun s => sqlInitcap (sqlTrim s))
    price := r.price.map round2 }

/-- The `WHERE product_id IS NOT NULL AND price > 0` predicate
(`price > 0` is unknown, hence false, on a NULL price). -/
def productKept (r : ProductRow) : Bool :=
  r.product_id.isSome &&
    (match r.price with
      | some p => decide (0 < p)
      | none => false)

/-- `CREATE OR REPLACE TABLE silver.products_clean AS SELECT DISTINCT ...
FROM raw.products WHERE product_id IS NOT NULL AND price > 0`. -/
def products_clean (raw : List ProductRow) : List ProductRow :=
  ((raw.filter productKept).map normalizeProduct).dedup

/-- The row produced for a matched (sale, customer, product) triple in
`sales_enriched`, with `total_amount = s.quantity * p.price`
(NULL-propagating multiplication). -/
def enrichedRowOf (s : SaleRow) (c : CustomerRow) (p : ProductRow) : EnrichedRow :=
  { sale_id := s.sale_id
    sale_date := s.sale_date
    customer_id := c.customer_id
    customer_name := c.name
    country := c.country
    product_id := p.product_id
    product_name := p.name
    category := p.category
    quantity := s.quantity
    total_amount :=
      match s.quantity, p.price with
      | some q, some pr => some ((q : ℚ) * pr)
      | _, _ => none }

/-- The `sales_enriched` rows contributed by the single raw sale `s`: its
matches against the cleaned customer and product dimensions. -/
def enrichSale (cc : List CustomerRow) (pc : List ProductRow) (s : SaleRow) :
    List EnrichedRow :=
  cc.flatMap (fun c =>
    pc.filterMap (fun p =>
      if optEqInt s.customer_id c.customer_id
          && optEqInt s.product_id p.product_id
          && s.sale_id.isSome
      then some (enrichedRowOf s c p)
      else none))

/-- `CREATE OR REPLACE TABLE silver.sales_enriched AS SELECT ...
FROM raw.sales s JOIN silver.customers_clean c ON s.customer_id = c.customer_id
JOIN silver.products_clean p ON s.product_id = p.product_id
WHERE s.sale_id IS NOT NULL`: one contribution per raw sale, in order. -/
def sales_enriched (sales : List SaleRow) (cc : List CustomerRow)
    (pc : List ProductRow) : List EnrichedRow :=
  sales.flatMap (enrichSale cc pc)

/-! ## Warehouse state and the Silver task -/

/-- The `raw` schema. -/
structure RawDB where
  customers : List CustomerRow
  products : List ProductRow
  sales : List SaleRow
deriving DecidableEq

/-- The `silver` schema. -/
structure SilverDB where
  customers_clean : List CustomerRow
  products_clean : List ProductRow
  sales_enriched : List EnrichedRow
deriving DecidableEq

/-- SQL `SUM` over a nullable numeric column: NULLs are ignored, and the
sum of no non-null values is NULL. -/
def sqlSumQ (l : List (Option ℚ)) : Option ℚ :=
  let vs := l.filterMap id
  if vs.isEmpty then none else some vs.sum

/-- SQL `SUM` over a nullable integer column. -/
def sqlSumInt (l : List (Option Int)) : Option Int :=
  let vs := l.filterMap id
  if vs.isEmpty then none else some vs.sum

/-- SQL `MAX` over a nullable string column (lexicographic, NULLs ignored). -/
def sqlMaxStr (l : List (Option String)) : Option String :=
  (l.filterMap id).foldl
    (fun acc s =>
      match acc with
      | none => some s
      | some m => some (if m < s then s else m))
    none

/-- A row of `gold.sales_by_country`. -/
structure CountryRow where
  country : Option String
  total_sales : Option ℚ
  number_of_sales : Nat
  number_of_customers : Nat
deriving DecidableEq

/-- A row of `gold.top_products`. -/
structure TopProductRow where
  name : Option String
  category : Option String
  total_quantity_sold : Option Int
  total_revenue : Option ℚ
deriving DecidableEq

/-- A row of `gold.client_activity`. -/
structure ClientActivityRow where
  customer_id : Option Int
  name : Option String
  country : Option String
  number_of_purchases : Nat
  total_spent : Option ℚ
  last_purchase_date : Option String
deriving DecidableEq

/-- The `gold` schema. -/
structure GoldDB where
  sales_by_country : List CountryRow
  top_products : List TopProductRow
  client_activity : List ClientActivityRow
deriving DecidableEq

/-- The whole warehouse. -/
structure DB where
  raw : RawDB
  silver : SilverDB
  gold : GoldDB
deriving DecidableEq

/-- The `transform_to_silver` task: three sequential `CREATE OR REPLACE`
statements, each fully replacing its target table; `sales_enriched` reads
the two just-written cleaned tables. -/
def transform_to_silver (db : DB) : DB :=
  let db1 := { db with silver :=
    { db.silver with customers_clean := customers_clean db.raw.customers } }
  let db2 := { db1 with silver :=
    { db1.silver with products_clean := products_clean db1.raw.products } }
  { db2 with silver :=
    { db2.silver with sales_enriched :=
        (sales_enriched db2.raw.sales db2.silver.customers_clean
          db2.silver.products_clean) } }

/-! ## Gold layer (task `create_gold_analytics`) -/

/-- The join multiset of
`silver.sales_enriched s JOIN silver.customers_clean c ON s.customer_id = c.customer_id`. -/
def countryJoin (se : List EnrichedRow) (cc : List CustomerRow) :
    List (EnrichedRow × CustomerRow) :=
  se.flatMap (fun s =>
    cc.filterMap (fun c =>
      if optEqInt s.customer_id c.customer_id then some (s, c) else none))

/-- `CREATE OR REPLACE TABLE gold.sales_by_country AS SELECT c.country,
SUM(s.total_amount), COUNT(DISTINCT s.sale_id), COUNT(DISTINCT c.customer_id)
... GROUP BY c.country`. -/
def sales_by_country (se : List EnrichedRow) (cc : List CustomerRow) :
    List CountryRow :=
  let joined := countryJoin se cc
  ((joined.map (fun sc => sc.2.country)).dedup).map (fun k =>
    let rows := joined.filter (fun sc => decide (sc.2.country = k))
    { country := k
      total_sales := sqlSumQ (rows.map (fun sc => sc.1.total_amount))
      number_of_sales := ((rows.filterMap (fun sc => sc.1.sale_id)).dedup).length
      number_of_customers :=
        ((rows.filterMap (fun sc => sc.2.customer_id)).dedup).length })

/-- Stable insertion of an element into a list ordered by `le`. -/
def insertBy {α : Type} (le : α → α → Bool) (a : α) : List α → List α
  | [] => [a]
  | b :: l => if le a b then a :: b :: l else b :: insertBy le a l

/-- Stable insertion sort by `le`. -/
def sortBy {α : Type} (le : α → α → Bool) : List α → List α
  | [] => []
  | a :: l => insertBy le a (sortBy le l)

/-- `ORDER BY total_revenue DESC` comparison on a nullable column
(descending, NULLS FIRST as in Snowflake). -/
def revDescLe (a b : Option ℚ) : Bool :=
  match a, b with
  | none, _ => true
  | some _, none => false
  | some x, some y => decide (y ≤ x)

/-- `CREATE OR REPLACE TABLE gold.top_products AS SELECT p.name, p.category,
SUM(s.quantity), SUM(s.total_amount) ... GROUP BY p.name, p.category
ORDER BY total_revenue DESC`. -/
def top_products (se : List EnrichedRow) (pc : List ProductRow) :
    List TopProductRow :=
  let joined := se.flatMap (fun s =>
    pc.filterMap (fun p =>
      if optEqInt s.product_id p.product_id then some (s, p) else none))
  let rows := ((joined.map (fun sp => (sp.2.name, sp.2.category))).dedup).map
    (fun k =>
      let g := joined.filter (fun sp => decide ((sp.2.name, sp.2.category) = k))
      { name := k.1
        category := k.2
        total_quantity_sold := sqlSumInt (g.map (fun sp => sp.1.quantity))
        total_revenue := sqlSumQ (g.map (fun sp => sp.1.total_amount)) })
  sortBy (fun r1 r2 => revDescLe r1.total_revenue r2.total_revenue) rows

/-- `CREATE OR REPLACE TABLE gold.client_activity AS SELECT c.customer_id,
c.name, c.country, COUNT(s.sale_id), SUM(s.total_amount), MAX(s.sale_date)
... GROUP BY c.customer_id, c.name, c.country`. -/
def client_activity (se : List EnrichedRow) (cc : List CustomerRow) :
    List ClientActivityRow :=
  let joined := countryJoin se cc
  ((joined.map (fun sc => (sc.2.customer_id, sc.2.name, sc.2.country))).dedup).map
    (fun k =>
      let g := joined.filter
        (fun sc => decide ((sc.2.customer_id, sc.2.name, sc.2.country) = k))
      { customer_id := k.1
        name := k.2.1
        country := k.2.2
        number_of_purchases := (g.filterMap (fun sc => sc.1.sale_id)).length
        total_spent := sqlSumQ (g.map (fun sc => sc.1.total_amount))
        last_purchase_date := sqlMaxStr (g.map (fun sc => sc.1.sale_date)) })

/-- The `create_gold_analytics` task: three `CREATE OR REPLACE` statements,
each reading only Silver tables. -/
def create_gold_layer (db : DB) : DB :=
  { db with gold :=
    { sales_by_country :=
        sales_by_country db.silver.sales_enriched db.silver.customers_clean
      top_products := top_products db.silver.sales_enriched db.silver.products_clean
      client_activity :=
        client_activity db.silver.sales_enriched db.silver.customers_clean } }

/-! ## Quality gate (task `data_quality_checks`) -/

/-- The `sales_orphan_check` row predicate: a raw sale whose `customer_id`
matches no raw customer (`LEFT JOIN ... WHERE c.customer_id IS NULL`). -/
def isOrphan (customers : List CustomerRow) (s : SaleRow) : Bool :=
  customers.all (fun c => !optEqInt s.customer_id c.customer_id)

/-- `customers_null_check`: count of `silver.customers_clean` rows with
NULL `customer_id` or NULL `email`. -/
def customersNullCount (db : DB) : Nat :=
  (db.silver.customers_clean.filter
    (fun r => r.customer_id.isNone || r.email.isNone)).length

/-- `products_price_check`: count of `silver.products_clean` rows with
`price <= 0` (unknown on NULL, hence not counted). -/
def productsPriceCount (db : DB) : Nat :=
  (db.silver.products_clean.filter
    (fun r =>
      match r.price with
      | some p => decide (p ≤ 0)
      | none => false)).length

/-- `sales_orphan_check`: count of raw sales with no matching raw customer. -/
def salesOrphanCount (db : DB) : Nat :=
  (db.raw.sales.filter (isOrphan db.raw.customers)).length

/-- The message appended for a failing check: `f"{check_name}: {result} issues found"`. -/
def issueLine (checkName : String) (count : Nat) : String :=
  checkName ++ ": " ++ toString count ++ " issues found"

/-- The three (name, violation count) pairs, in the order of the `checks` dict. -/
def qcChecks (db : DB) : List (String × Nat) :=
  [("customers_null_check", customersNullCount db),
   ("products_price_check", productsPriceCount db),
   ("sales_orphan_check", salesOrphanCount db)]

/-- The `issues` list accumulated by the loop: one line per check whose
count is `> 0`, in check order. -/
def qcIssues (db : DB) : List String :=
  (qcChecks db).filterMap
    (fun nc => if 0 < nc.2 then some (issueLine nc.1 nc.2) else none)

/-- The `data_quality_check` task: run every check, collect all failing
ones, then raise `ValueError` iff any failed, with the joined message. -/
def data_quality_check (db : DB) : Except String String :=
  let issues := qcIssues db
  if issues.isEmpty then Except.ok "All data quality checks passed"
  else Except.error ("Data quality checks failed: " ++ joinComma issues)

/-! ## Uploader (task `upload_to_s3`) -/

/-- The `if/elif/elif/else: continue` classification of a filename into its
S3 destination key, tried in the order customers, products, sales. -/
def classifyFile (filename : String) : Option String :=
  if strContains "customers" filename then some ("raw/customers/" ++ filename)
  else if strContains "products" filename then some ("raw/products/" ++ filename)
  else if strContains "sales" filename then some ("raw/sales/" ++ filename)
  else none

/-- The `upload_to_s3` task on a directory listing: keep files containing
the execution date, classify, upload, and return the keys written in order. -/
def upload_to_s3 (files : List String) (execution_date : String) : List String :=
  files.filterMap (fun f =>
    if strContains execution_date f then classifyFile f else none)

/-! ## Data generator (task `generate_fake_data`, sales records) -/

/-- Python's `random.randint(lo, hi)` (both bounds inclusive), driven by an
arbitrary draw `r` from the random stream. -/
def pyRandint (lo hi : Int) (r : Nat) : Int :=
  lo + (r : Int) % (hi - lo + 1)

/-- The sales list built by `generate_fake_data`: `sale_id` from 1 up to
`saleCount`, `customer_id = randint(1, customerCount)`,
`product_id = randint(1, productCount)`, `quantity = randint(1, 5)`,
`sale_date = fake.date_this_year()`. The random stream and the Faker dates
are oracles. -/
def generate_sales (customerCount productCount saleCount : Nat)
    (rand : Nat → Nat) (fakeDate : Nat → String) : List SaleRow :=
  (List.range saleCount).map (fun (j : Nat) =>
    { sale_id := some ((j + 1 : Nat) : Int)
      customer_id := some (pyRandint 1 (customerCount : Int) (rand (3 * j)))
      product_id := some (pyRandint 1 (productCount : Int) (rand (3 * j + 1)))
      quantity := some (pyRandint 1 5 (rand (3 * j + 2)))
      sale_date := some (fakeDate j) })

/-! ## Metrics reporter (task `send_completion_metrics`) -/

/-- The summary emitted by `send_metrics_notification`. -/
structure Summary where
  countries_count : Nat
  total_revenue : ℚ
  products_count : Nat
deriving DecidableEq

/-- The three Snowflake reads issued by the reporter; each either returns a
value or fails (connection/query error). -/
structure SnowflakeConn where
  count_sales_by_country : Except String Nat
  sum_total_sales : Except String (Option ℚ)
  count_top_products : Except String Nat

/-- The `send_metrics_notification` task: read the country count, the
revenue sum (`fetchone()[0] or 0` turns a NULL sum into 0) and the product
count, and emit the summary; any failing read propagates (no handler). -/
def send_metrics_notification (conn : SnowflakeConn) : Except String Summary := do
  let countries ← conn.count_sales_by_country
  let revenue ← conn.sum_total_sales
  let products ← conn.count_top_products
  Except.ok
    { countries_count := countries
      total_revenue := revenue.getD 0
      products_count := products }

/-- The reads produced by a healthy connection to the Gold schema: the
`COUNT(*)` and `SUM(total_sales)` queries evaluated on the stored tables. -/
def connFor (g : GoldDB) : SnowflakeConn :=
  { count_sales_by_country := Except.ok g.sales_by_country.length
    sum_total_sales :=
      Except.ok (sqlSumQ (g.sales_by_country.map (fun r => r.total_sales)))
    count_top_products := Except.ok g.top_products.length }

/-- Whether a task instance finished without raising. -/
def taskSucceeded {α : Type} : Except String α → Bool
  | Except.ok _ => true
  | Except.error _ => false

/-- Airflow marks the DAG run successful only if every task succeeded; the
reporter is the last task of the chain (line 382 of the DAG). -/
def dagRunSuccess (upstreamOk : List Bool) (metrics : Except String Summary) :
    Bool :=
  upstreamOk.all (fun b => b) && taskSucceeded metrics

/-! ## Concrete instances and claim statements used by the theorems -/

/-- A convenient empty warehouse for instantiations. -/
def emptyDB : DB := ⟨⟨[], [], []⟩, ⟨[], [], []⟩, ⟨[], [], []⟩⟩

/-- A concrete generated sale row used in witnesses. -/
def wSale : SaleRow := ⟨some 1, some 1, some 1, some 1, some "2024-01-01"⟩

/-- A warehouse whose raw sales hold one orphan (no raw customers at all),
with clean Silver tables: only the orphan check fails. -/
def wQcDB : DB :=
  ⟨⟨[], [], [⟨some 1, some 7, some 1, some 1, some "d"⟩]⟩,
   ⟨[], [], []⟩, ⟨[], [], []⟩⟩

/-- The C2 claim exactly as stated: a raw sale whose `customer_id` matches
no row of the cleaned customers dimension contributes no `sales_enriched`
row (removing it changes nothing) and is counted by the orphan check, which
matches against raw customers. -/
def claimC2Statement (customers : List CustomerRow) (products : List ProductRow)
    (sales : List SaleRow) : Prop :=
  ∀ s ∈ sales,
    (∀ c ∈ customers_clean customers, optEqInt s.customer_id c.customer_id = false) →
    (enrichSale (customers_clean customers) (products_clean products) s = []
     ∧ sales_enriched sales (customers_clean customers) (products_clean products)
         = sales_enriched (sales.filter (fun a => decide (a ≠ s)))
             (customers_clean customers) (products_clean products)
     ∧ isOrphan customers s = true)

/-- The C6 claim exactly as stated: every Gold `sales_by_country` row's
`total_sales` equals the sum of `total_amount` over the `sales_enriched`
rows carrying that row's country. -/
def claimC6Statement (se : List EnrichedRow) (cc : List CustomerRow) : Prop :=
  ∀ row ∈ sales_by_country se cc,
    row.total_sales
      = sqlSumQ ((se.filter (fun s => decide (s.country = row.country))).map
          (fun s => s.total_amount))

/-- Counterexample data for C6: two raw customers sharing `customer_id` 1
(same name and country, different emails — both survive full-row
deduplication), one product, one sale referencing customer 1. -/
def ceRawCustomers : List CustomerRow :=
  [⟨some 1, some "Al", some "FR", some "a@x"⟩,
   ⟨some 1, some "Al", some "FR", some "b@x"⟩]

/-- The one raw product of the C6 counterexample. -/
def ceRawProducts : List ProductRow :=
  [⟨some 1, some "Pen", some "Home", some 10⟩]

/-- The one raw sale of the C6 counterexample. -/
def ceRawSales : List SaleRow := [⟨some 1, some 1, some 1, some 1, some "d"⟩]

/-- The cleaned customers of `ceRawCustomers`: both rows survive. -/
def ceCC : List CustomerRow :=
  [⟨some 1, some "Al", some "FR", some "a@x"⟩,
   ⟨some 1, some "Al", some "FR", some "b@x"⟩]

/-- The enriched row the C6 counterexample sale produces (twice: once per
duplicate cleaned customer). -/
def ceEnriched : EnrichedRow :=
  ⟨some 1, some "d", some 1, some "Al", some "FR", some 1, some "Pen",
   some "Home", some 1, some 10⟩

/-- The `sales_enriched` table of the C6 counterexample. -/
def ceSE : List EnrichedRow := [ceEnriched, ceEnriched]

/-- The C9 claim as stated: the reporter emits the Gold summary (treating a
null SUM as zero) and a failure to read is non-fatal to the DAG run's
success. -/
def claimC9Statement : Prop :=
  (∀ g : GoldDB, send_metrics_notification (connFor g)
      = Except.ok ⟨g.sales_by_country.length,
          (sqlSumQ (g.sales_by_country.map (fun r => r.total_sales))).getD 0,
          g.top_products.length⟩)
  ∧ (∀ (conn : SnowflakeConn) (upstream : List Bool),
      upstream.all (fun b => b) = true →
      dagRunSuccess upstream (send_metrics_notification conn) = true)

/-- A connection whose first Gold read fails. -/
def badConn : SnowflakeConn :=
  ⟨Except.error "could not connect to Snowflake", Except.ok none, Except.ok 0⟩

/-- A one-customer cleaned dimension used to witness C6. -/
def wCC : List CustomerRow := [⟨some 1, some "Al", some "FR", some "a@x"⟩]

/-- A one-row `sales_enriched` table used to witness C6. -/
def wSE : List EnrichedRow := [ceEnriched]

/-! ## Helper lemmas on the string primitives -/

theorem listPrefixB_self_append (n t : List Char) :
    listPrefixB n (n ++ t) = true := by
  induction n with
  | nil => rfl
  | cons a as ih => simp [listPrefixB, ih]

theorem listPrefixB_append (n h t : List Char) (hp : listPrefixB n h = true) :
    listPrefixB n (h ++ t) = true := by
  induction n generalizing h with
  | nil => rfl
  | cons a as ih =>
    cases h with
    | nil => simp [listPrefixB] at hp
    | cons b bs =>
      simp only [listPrefixB, Bool.and_eq_true] at hp
      simp only [List.cons_append, listPrefixB, Bool.and_eq_true]
      exact ⟨hp.1, ih bs hp.2⟩

theorem listContainsB_nilNeedle (h : List Char) : listContainsB [] h = true := by
  cases h <;> simp [listContainsB, listPrefixB, List.isEmpty]

theorem listContainsB_of_listPrefixB (n h : List Char)
    (hp : listPrefixB n h = true) : listContainsB n h = true := by
  cases h with
  | nil =>
    cases n with
    | nil => rfl
    | cons a as => simp [listPrefixB] at hp
  | cons c cs => simp [listContainsB, hp]

theorem listContainsB_append_left (pre n h : List Char)
    (hc : listContainsB n h = true) : listContainsB n (pre ++ h) = true := by
  induction pre with
  | nil => simpa using hc
  | cons c cs ih => simp [listContainsB, ih]

theorem strContains_append_left (pre s x : String)
    (h : strContains x s = true) : strContains x (pre ++ s) = true := by
  unfold strContains at h ⊢
  rw [String.data_append]
  exact listContainsB_append_left pre.data x.data s.data h

theorem strContains_mem_joinComma (x : String) (l : List String) (hx : x ∈ l) :
    strContains x (joinComma l) = true := by
  induction l with
  | nil => cases hx
  | cons a rest ih =>
    rcases List.mem_cons.mp hx with rfl | hmem
    · cases rest with
      | nil =>
        have hp := listPrefixB_self_append x.data []
        rw [List.append_nil] at hp
        exact listContainsB_of_listPrefixB _ _ hp
      | cons b bs =>
        show strContains x (x ++ ", " ++ joinComma (b :: bs)) = true
        unfold strContains
        rw [String.data_append, String.data_append, List.append_assoc]
        exact listContainsB_of_listPrefixB _ _
          (listPrefixB_self_append x.data _)
    · cases rest with
      | nil => cases hmem
      | cons b bs =>
        show strContains x (a ++ ", " ++ joinComma (b :: bs)) = true
        exact strContains_append_left (a ++ ", ") _ x (ih hmem)

/-! ## Helper lemmas on rounding and membership -/

theorem roundHalfAway_intCast (n : ℤ) : roundHalfAway ((n : ℚ)) = n := by
  have hhalf : ⌊(1/2 : ℚ)⌋ = 0 := by
    rw [Int.floor_eq_zero_iff, Set.mem_Ico]
    norm_num
  unfold roundHalfAway
  by_cases h : (0:ℚ) ≤ (n : ℚ)
  · rw [if_pos h, Int.floor_int_add, hhalf, add_zero]
  · rw [if_neg h, ← Int.cast_neg, Int.floor_int_add, hhalf, add_zero, neg_neg]

theorem round2_intMul (q : ℚ) (n : ℤ) (h : q * 100 = (n : ℚ)) :
    round2 q = (n : ℚ) / 100 := by
  rw [round2, h, roundHalfAway_intCast]

theorem mem_customers_clean (raw : List CustomerRow) (r : CustomerRow) :
    r ∈ customers_clean raw ↔
      ∃ x, x ∈ raw ∧ (x.customer_id.isSome = true ∧ x.email.isSome = true)
        ∧ r = normalizeCustomer x := by
  unfold customers_clean
  rw [List.mem_dedup, List.mem_map]
  constructor
  · rintro ⟨x, hx, rfl⟩
    have hm := List.mem_filter.mp hx
    exact ⟨x, hm.1, by simpa [Bool.and_eq_true] using hm.2, rfl⟩
  · rintro ⟨x, hx, hcond, rfl⟩
    exact ⟨x, List.mem_filter.mpr ⟨hx, by simp [hcond.1, hcond.2]⟩, rfl⟩

theorem productKept_iff (r : ProductRow) :
    productKept r = true ↔
      r.product_id.isSome = true ∧ ∃ p : ℚ, r.price = some p ∧ 0 < p := by
  unfold productKept
  cases hp : r.price with
  | none => simp [hp]
  | some p => simp [hp]

theorem mem_products_clean (raw : List ProductRow) (r : ProductRow) :
    r ∈ products_clean raw ↔
      ∃ x, x ∈ raw ∧ (x.product_id.isSome = true ∧ ∃ p : ℚ, x.price = some p ∧ 0 < p)
        ∧ r = normalizeProduct x := by
  unfold products_clean
  rw [List.mem_dedup, List.mem_map]
  constructor
  · rintro ⟨x, hx, rfl⟩
    have hm := List.mem_filter.mp hx
    exact ⟨x, hm.1, (productKept_iff x).mp hm.2, rfl⟩
  · rintro ⟨x, hx, hcond, rfl⟩
    exact ⟨x, List.mem_filter.mpr ⟨hx, (productKept_iff x).mpr hcond⟩, rfl⟩

theorem filterMap_ite {β γ : Type} (l : List β) (q : β → Bool) (g : β → γ) :
    (l.filterMap (fun c => if q c then some (g c) else none))
      = (l.filter q).map g := by
  induction l with
  | nil => rfl
  | cons a as ih =>
    by_cases h : q a
    · simp [List.filterMap_cons, List.filter_cons, h, ih]
    · simp [List.filterMap_cons, List.filter_cons, h, ih]

/-! ## Claim theorems -/

/-- C5: running the Silver transform twice against the same unchanged raw
tables yields identical cleaned tables (`customers_clean`, `products_clean`,
`sales_enriched`), and the resulting Silver state depends only on the raw
input: each run fully replaces, never appends to, the prior output. -/
theorem transform_to_silver_idempotent (db1 db2 : DB) (h : db1.raw = db2.raw) :
    (transform_to_silver (transform_to_silver db1)).silver
        = (transform_to_silver db1).silver
    ∧ (transform_to_silver db1).silver = (transform_to_silver db2).silver := by
  refine ⟨rfl, ?_⟩
  simp only [transform_to_silver]
  rw [h]

/-- Witness for C5 at a concrete warehouse state. -/
theorem transform_to_silver_idempotent_witness :
    (transform_to_silver (transform_to_silver emptyDB)).silver
        = (transform_to_silver emptyDB).silver
    ∧ (transform_to_silver emptyDB).silver
        = (transform_to_silver emptyDB).silver :=
  transform_to_silver_idempotent emptyDB emptyDB rfl

theorem classifyFile_eq_some_iff (f k : String) :
    classifyFile f = some k ↔
      ((strContains "customers" f = true ∧ k = "raw/customers/" ++ f)
       ∨ (strContains "customers" f = false ∧ strContains "products" f = true
            ∧ k = "raw/products/" ++ f)
       ∨ (strContains "customers" f = false ∧ strContains "products" f = false
            ∧ strContains "sales" f = true ∧ k = "raw/sales/" ++ f)) := by
  unfold classifyFile
  cases h1 : strContains "customers" f <;>
    cases h2 : strContains "products" f <;>
      cases h3 : strContains "sales" f <;>
        simp [h1, h2, h3, eq_comm]

/-- C7: `upload_to_s3` uploads exactly the files whose name contains the
execution date and one of the substrings customers/products/sales — each
under the matching `raw/` destination prefix, preserving the filename — and
returns exactly the keys written, skipping every other file; on
`["customers_2024-01-01.csv", "readme.txt"]` with date `2024-01-01` it
returns exactly the one customers key. -/
theorem upload_to_s3_spec :
    (∀ (files : List String) (date k : String),
      k ∈ upload_to_s3 files date ↔
        ∃ f, f ∈ files ∧ strContains date f = true ∧
          ((strContains "customers" f = true ∧ k = "raw/customers/" ++ f)
           ∨ (strContains "customers" f = false
                ∧ strContains "products" f = true ∧ k = "raw/products/" ++ f)
           ∨ (strContains "customers" f = false
                ∧ strContains "products" f = false
                ∧ strContains "sales" f = true ∧ k = "raw/sales/" ++ f)))
    ∧ upload_to_s3 ["customers_2024-01-01.csv", "readme.txt"] "2024-01-01"
        = ["raw/customers/customers_2024-01-01.csv"] := by
  constructor
  · intro files date k
    rw [upload_to_s3, List.mem_filterMap]
    constructor
    · rintro ⟨f, hf, hsome⟩
      by_cases hd : strContains date f = true
      · rw [if_pos hd] at hsome
        exact ⟨f, hf, hd, (classifyFile_eq_some_iff f k).mp hsome⟩
      · rw [if_neg hd] at hsome
        cases hsome
    · rintro ⟨f, hf, hd, hcase⟩
      refine ⟨f, hf, ?_⟩
      rw [if_pos hd]
      exact (classifyFile_eq_some_iff f k).mpr hcase
  · decide

/-- C10: filename classification tests the three substrings in the fixed
order customers, then products, then sales, so a filename containing
several of them is uploaded under the destination prefix of the first match
in that order; in particular `customers_sales_2024-01-01.csv` is uploaded
under `raw/customers/`, never `raw/sales/`. -/
theorem classification_order_spec :
    (∀ f : String, strContains "customers" f = true →
        classifyFile f = some ("raw/customers/" ++ f))
    ∧ (∀ f : String, strContains "customers" f = false →
        strContains "products" f = true →
        classifyFile f = some ("raw/products/" ++ f))
    ∧ (∀ f : String, strContains "customers" f = false →
        strContains "products" f = false → strContains "sales" f = true →
        classifyFile f = some ("raw/sales/" ++ f))
    ∧ upload_to_s3 ["customers_sales_2024-01-01.csv"] "2024-01-01"
        = ["raw/customers/customers_sales_2024-01-01.csv"] := by
  refine ⟨?_, ?_, ?_, by decide⟩
  · intro f h1
    simp [classifyFile, h1]
  · intro f h1 h2
    simp [classifyFile, h1, h2]
  · intro f h1 h2 h3
    simp [classifyFile, h1, h2, h3]

theorem pyRandint_bounds (lo hi : Int) (r : Nat) (h : lo ≤ hi) :
    lo ≤ pyRandint lo hi r ∧ pyRandint lo hi r ≤ hi := by
  unfold pyRandint
  have hpos : (0:Int) < hi - lo + 1 := by omega
  have h1 : 0 ≤ (r : Int) % (hi - lo + 1) := Int.emod_nonneg _ (by omega)
  have h2 : (r : Int) % (hi - lo + 1) < hi - lo + 1 := Int.emod_lt_of_pos _ hpos
  omega

/-- C8: every generated sale row has `customer_id` in `[1, customer_count]`,
`product_id` in `[1, product_count]` (referential validity by construction)
and an integer `quantity` in the range `1..100` (the generator draws it
from `1..5`), whatever the random stream and dates produce. -/
theorem generate_sales_spec (customerCount productCount saleCount : Nat)
    (rand : Nat → Nat) (fakeDate : Nat → String)
    (hc : 0 < customerCount) (hp : 0 < productCount) :
    ∀ s ∈ generate_sales customerCount productCount saleCount rand fakeDate,
      (∃ c : Int, s.customer_id = some c ∧ 1 ≤ c ∧ c ≤ (customerCount : Int))
      ∧ (∃ p : Int, s.product_id = some p ∧ 1 ≤ p ∧ p ≤ (productCount : Int))
      ∧ (∃ q : Int, s.quantity = some q ∧ 1 ≤ q ∧ q ≤ 100) := by
  intro s hs
  obtain ⟨j, hj, rfl⟩ := List.mem_map.mp hs
  have hcb := pyRandint_bounds 1 (customerCount : Int) (rand (3 * j)) (by omega)
  have hpb := pyRandint_bounds 1 (productCount : Int) (rand (3 * j + 1)) (by omega)
  have hqb := pyRandint_bounds 1 5 (rand (3 * j + 2)) (by omega)
  exact ⟨⟨_, rfl, hcb.1, hcb.2⟩, ⟨_, rfl, hpb.1, hpb.2⟩,
    ⟨_, rfl, hqb.1, by omega⟩⟩

/-- Witness for C8: the sale generated with a constant-zero random stream
at counts 100/50/1. -/
theorem generate_sales_spec_witness :
    (∃ c : Int, wSale.customer_id = some c ∧ 1 ≤ c ∧ c ≤ ((100 : Nat) : Int))
    ∧ (∃ p : Int, wSale.product_id = some p ∧ 1 ≤ p ∧ p ≤ ((50 : Nat) : Int))
    ∧ (∃ q : Int, wSale.quantity = some q ∧ 1 ≤ q ∧ q ≤ 100) :=
  generate_sales_spec 100 50 1 (fun _ => 0) (fun _ => "2024-01-01")
    (by decide) (by decide) wSale (by decide)

/-- C3: `customers_clean` holds exactly the distinct rows (full-row
deduplication, so no duplicates remain) obtained from the raw customers
with non-null `customer_id` and `email` by trimming and then title-casing
the name, uppercasing the country and lowercasing the email; on the raw
input with ids 1 and 2 (null email) only the normalized id-1 row survives. -/
theorem customers_clean_spec :
    (∀ raw : List CustomerRow,
      (customers_clean raw).Nodup
      ∧ ∀ r : CustomerRow, r ∈ customers_clean raw ↔
          ∃ x, x ∈ raw ∧ (x.customer_id.isSome = true ∧ x.email.isSome = true)
            ∧ r = normalizeCustomer x)
    ∧ customers_clean
        [⟨some 1, some " Alice ", some "fr", some " A@X.com "⟩,
         ⟨some 2, some "Bob", some "de", none⟩]
        = [⟨some 1, some "Alice", some "FR", some "a@x.com"⟩] :=
  ⟨fun raw => ⟨List.nodup_dedup _, fun r => mem_customers_clean raw r⟩,
   by decide⟩

/-- C4: `products_clean` holds exactly the deduplicated rows obtained from
the raw products with non-null `product_id` and strictly positive price,
with name and category title-cased and price rounded to 2 decimals; on the
raw input with prices −5 and 20 only the normalized product 2 survives. -/
theorem products_clean_spec :
    (∀ raw : List ProductRow,
      (products_clean raw).Nodup
      ∧ ∀ r : ProductRow, r ∈ products_clean raw ↔
          ∃ x, x ∈ raw
            ∧ (x.product_id.isSome = true ∧ ∃ p : ℚ, x.price = some p ∧ 0 < p)
            ∧ r = normalizeProduct x)
    ∧ products_clean
        [⟨some 1, some "pen", some "home", some (-5)⟩,
         ⟨some 2, some " desk ", some "home", some 20⟩]
        = [⟨some 2, some "Desk", some "Home", some 20⟩] := by
  refine ⟨fun raw => ⟨List.nodup_dedup _, fun r => mem_products_clean raw r⟩, ?_⟩
  have h20 : round2 20 = 20 := by
    rw [round2_intMul 20 2000 (by norm_num)]
    norm_num
  norm_num [products_clean, productKept, normalizeProduct, h20,
    List.filter_cons, List.filter_nil, List.dedup_nil,
    List.dedup_cons_of_not_mem]
  decide

/-! ## C1: the quality gate -/

theorem qcIssues_mem (db : DB) (name : String) (c : Nat)
    (hm : (name, c) ∈ qcChecks db) (hpos : 0 < c) :
    issueLine name c ∈ qcIssues db := by
  unfold qcIssues
  rw [List.mem_filterMap]
  exact ⟨(name, c), hm, by simp [hpos]⟩

theorem qcIssues_eq_nil_iff (db : DB) :
    qcIssues db = [] ↔
      customersNullCount db = 0 ∧ productsPriceCount db = 0
        ∧ salesOrphanCount db = 0 := by
  unfold qcIssues qcChecks
  rcases Nat.eq_zero_or_pos (customersNullCount db) with h1 | h1 <;>
    rcases Nat.eq_zero_or_pos (productsPriceCount db) with h2 | h2 <;>
      rcases Nat.eq_zero_or_pos (salesOrphanCount db) with h3 | h3 <;>
        simp [List.filterMap_cons, h1, h2, h3] <;> omega

/-- C1: `data_quality_check` runs all three checks, raises an error iff at
least one violation count is positive, and its error message is the
comma-joined enumeration of every failing check's line
`"<name>: <count> issues found"` — each failing check's line occurs in the
message, not just the first. -/
theorem data_quality_check_spec (db : DB) :
    ((∃ msg, data_quality_check db = Except.error msg) ↔
        (0 < customersNullCount db ∨ 0 < productsPriceCount db
          ∨ 0 < salesOrphanCount db))
    ∧ (∀ msg, data_quality_check db = Except.error msg →
        msg = "Data quality checks failed: " ++ joinComma (qcIssues db)
        ∧ (0 < customersNullCount db →
            strContains
              (issueLine "customers_null_check" (customersNullCount db)) msg
              = true)
        ∧ (0 < productsPriceCount db →
            strContains
              (issueLine "products_price_check" (productsPriceCount db)) msg
              = true)
        ∧ (0 < salesOrphanCount db →
            strContains
              (issueLine "sales_orphan_check" (salesOrphanCount db)) msg
              = true)) := by
  constructor
  · constructor
    · rintro ⟨msg, hmsg⟩
      by_contra hno
      push_neg at hno
      have hnil : qcIssues db = [] := (qcIssues_eq_nil_iff db).mpr
        ⟨by omega, by omega, by omega⟩
      unfold data_quality_check at hmsg
      rw [hnil] at hmsg
      cases hmsg
    · intro hdisj
      have hne : qcIssues db ≠ [] := by
        intro hnil
        rcases (qcIssues_eq_nil_iff db).mp hnil with ⟨h1, h2, h3⟩
        rcases hdisj with h | h | h <;> omega
      unfold data_quality_check
      rw [if_neg (by simpa [List.isEmpty_iff] using hne)]
      exact ⟨_, rfl⟩
  · intro msg hmsg
    have hne : ¬ ((qcIssues db).isEmpty = true) := by
      intro hempty
      unfold data_quality_check at hmsg
      rw [if_pos hempty] at hmsg
      cases hmsg
    have hmsg' : msg = "Data quality checks failed: " ++ joinComma (qcIssues db) := by
      unfold data_quality_check at hmsg
      rw [if_neg hne] at hmsg
      cases hmsg
      rfl
    refine ⟨hmsg', ?_, ?_, ?_⟩ <;> intro hpos <;> rw [hmsg'] <;>
      exact strContains_append_left _ _ _
        (strContains_mem_joinComma _ _
          (qcIssues_mem db _ _ (by simp [qcChecks]) hpos))

/-- Witness for C1: on `wQcDB` the gate raises and the orphan check's line
occurs in the message. -/
theorem data_quality_check_spec_witness :
    strContains (issueLine "sales_orphan_check" (salesOrphanCount wQcDB))
      "Data quality checks failed: sales_orphan_check: 1 issues found"
      = true :=
  (((data_quality_check_spec wQcDB).2 _ rfl).2.2.2) (by decide)

/-! ## C2: orphan sales are excluded from the Silver join -/

theorem customers_clean_id_from_raw (raw : List CustomerRow) (c : CustomerRow)
    (hc : c ∈ customers_clean raw) :
    ∃ x, x ∈ raw ∧ c.customer_id = x.customer_id := by
  obtain ⟨x, hx, _, rfl⟩ := (mem_customers_clean raw c).mp hc
  exact ⟨x, hx, rfl⟩

theorem enrichSale_eq_nil (cc : List CustomerRow) (pc : List ProductRow)
    (s : SaleRow)
    (h : ∀ c ∈ cc, optEqInt s.customer_id c.customer_id = false) :
    enrichSale cc pc s = [] := by
  unfold enrichSale
  induction cc with
  | nil => rfl
  | cons c cs ih =>
    rw [List.flatMap_cons]
    have h1 := h c (List.mem_cons_self c cs)
    have hfm : pc.filterMap (fun p =>
        if optEqInt s.customer_id c.customer_id
            && optEqInt s.product_id p.product_id && s.sale_id.isSome
        then some (enrichedRowOf s c p) else none) = [] := by
      simp [h1]
    rw [hfm, List.nil_append]
    exact ih (fun c' hc' => h c' (List.mem_cons_of_mem c hc'))

theorem sales_enriched_drop (sales : List SaleRow) (cc : List CustomerRow)
    (pc : List ProductRow) (s : SaleRow) (hnil : enrichSale cc pc s = []) :
    sales_enriched sales cc pc
      = sales_enriched (sales.filter (fun a => decide (a ≠ s))) cc pc := by
  induction sales with
  | nil => rfl
  | cons a rest ih =>
    unfold sales_enriched at ih ⊢
    rw [List.flatMap_cons, List.filter_cons]
    by_cases ha : a = s
    · subst ha
      rw [hnil, List.nil_append, if_neg (by simp)]
      exact ih
    · have hkeep : decide (a ≠ s) = true := by simp [ha]
      rw [hkeep]
      simp only [if_true]
      rw [List.flatMap_cons, ih]

/-- C2 counterexample: one raw customer with id 1 but NULL email (so it is
dropped from `customers_clean`), and one raw sale referencing customer 1.
The sale matches no cleaned customer, yet the orphan check does not count
it, because its `customer_id` does match the raw customer. -/
theorem claimC2_counterexample :
    ¬ claimC2Statement [⟨some 1, some "Al", some "FR", none⟩] []
        [⟨some 1, some 1, some 1, some 1, some "d"⟩] := by
  unfold claimC2Statement
  decide

/-- C2 amended: for every raw sale whose `customer_id` matches no row of
the raw customers table, the sale contributes no row to `sales_enriched`
(it matches no cleaned customer either, and removing it from the raw sales
leaves `sales_enriched` unchanged), and it is counted by the quality gate's
orphan check. -/
theorem orphan_sale_excluded (customers : List CustomerRow)
    (products : List ProductRow) (sales : List SaleRow) (s : SaleRow)
    (_hs : s ∈ sales)
    (h : ∀ c ∈ customers, optEqInt s.customer_id c.customer_id = false) :
    enrichSale (customers_clean customers) (products_clean products) s = []
    ∧ sales_enriched sales (customers_clean customers) (products_clean products)
        = sales_enriched (sales.filter (fun a => decide (a ≠ s)))
            (customers_clean customers) (products_clean products)
    ∧ isOrphan customers s = true := by
  have hcc : ∀ c' ∈ customers_clean customers,
      optEqInt s.customer_id c'.customer_id = false := by
    intro c' hc'
    obtain ⟨x, hx, heq⟩ := customers_clean_id_from_raw customers c' hc'
    rw [heq]
    exact h x hx
  have h1 := enrichSale_eq_nil _ (products_clean products) s hcc
  refine ⟨h1, sales_enriched_drop sales _ _ s h1, ?_⟩
  simp only [isOrphan, List.all_eq_true]
  intro c hc
  simp [h c hc]

/-- Witness for C2 at a concrete orphan sale (no raw customers at all). -/
theorem orphan_sale_excluded_witness :
    enrichSale (customers_clean []) (products_clean []) wSale = []
    ∧ sales_enriched [wSale] (customers_clean []) (products_clean [])
        = sales_enriched ([wSale].filter (fun a => decide (a ≠ wSale)))
            (customers_clean []) (products_clean [])
    ∧ isOrphan [] wSale = true :=
  orphan_sale_excluded [] [] [wSale] wSale (by decide) (by decide)

/-! ## C6: the Gold country rollup -/

theorem map_eq_singleton_extract {β γ : Type} (l : List β) (f : β → γ) (y : γ)
    (h : l.map f = [y]) : ∃ b, l = [b] ∧ f b = y := by
  cases l with
  | nil => cases h
  | cons a as =>
    cases as with
    | nil =>
      simp only [List.map_cons, List.map_nil, List.cons.injEq, and_true] at h
      exact ⟨a, rfl, h⟩
    | cons b bs => simp at h

theorem countryJoin_filter_map (se : List EnrichedRow) (cc : List CustomerRow)
    (k : Option String) :
    (∀ s ∈ se, (cc.filter (fun c => optEqInt s.customer_id c.customer_id)).map
        (fun c => c.country) = [s.country]) →
    ((countryJoin se cc).filter (fun sc => decide (sc.2.country = k))).map
        (fun sc => sc.1.total_amount)
      = (se.filter (fun s => decide (s.country = k))).map
          (fun s => s.total_amount) := by
  induction se with
  | nil => intro _; rfl
  | cons s rest ih =>
    intro h
    have hs := h s (List.mem_cons_self s rest)
    obtain ⟨c, hcf, hck⟩ := map_eq_singleton_extract _ _ _ hs
    have hhead : (cc.filterMap (fun c' =>
        if optEqInt s.customer_id c'.customer_id then some (s, c') else none))
        = [(s, c)] := by
      rw [filterMap_ite cc (fun c' => optEqInt s.customer_id c'.customer_id)
        (fun c' => (s, c')), hcf]
      rfl
    have hcj : countryJoin (s :: rest) cc = (s, c) :: countryJoin rest cc := by
      unfold countryJoin
      rw [List.flatMap_cons, hhead]
      rfl
    rw [hcj, List.filter_cons, List.filter_cons]
    by_cases hk : s.country = k
    · rw [if_pos (by simp [hck, hk]), if_pos (by simp [hk])]
      simp only [List.map_cons]
      rw [ih (fun s' hs' => h s' (List.mem_cons_of_mem s hs'))]
    · rw [if_neg (by simp [hck, hk]), if_neg (by simp [hk])]
      exact ih (fun s' hs' => h s' (List.mem_cons_of_mem s hs'))

/-- C6 amended: for every row of Gold `sales_by_country`, provided each
`sales_enriched` row's `customer_id` matches exactly one `customers_clean`
row and that row's country equals the sale row's own country column (true
in particular whenever `customer_id` is unique in `customers_clean`), the
row's `total_sales` is exactly the SQL sum of `total_amount` over the
`sales_enriched` rows carrying that country. Without that uniqueness the
re-join in `create_gold_analytics` double-counts (see the counterexample). -/
theorem sales_by_country_total (se : List EnrichedRow) (cc : List CustomerRow)
    (h : ∀ s ∈ se, (cc.filter (fun c => optEqInt s.customer_id c.customer_id)).map
        (fun c => c.country) = [s.country]) :
    ∀ row ∈ sales_by_country se cc,
      row.total_sales
        = sqlSumQ ((se.filter (fun s => decide (s.country = row.country))).map
            (fun s => s.total_amount)) := by
  intro row hrow
  simp only [sales_by_country] at hrow
  obtain ⟨k, hk, rfl⟩ := List.mem_map.mp hrow
  dsimp only
  rw [countryJoin_filter_map se cc k h]

theorem sales_by_country_w :
    sales_by_country wSE wCC = [⟨some "FR", some ((10:ℚ) + 0), 1, 1⟩] := rfl

/-- Witness for C6 on a one-sale, one-customer warehouse. -/
theorem sales_by_country_total_witness :
    (⟨some "FR", some ((10:ℚ) + 0), 1, 1⟩ : CountryRow).total_sales
      = sqlSumQ ((wSE.filter (fun s =>
          decide (s.country
            = (⟨some "FR", some ((10:ℚ) + 0), 1, 1⟩ : CountryRow).country))).map
            (fun s => s.total_amount)) :=
  sales_by_country_total wSE wCC (by decide) ⟨some "FR", some ((10:ℚ) + 0), 1, 1⟩
    (by rw [sales_by_country_w]; exact List.mem_cons_self _ _)

theorem products_clean_ce :
    products_clean ceRawProducts = [⟨some 1, some "Pen", some "Home", some 10⟩] := by
  have h10 : round2 10 = 10 := by
    rw [round2_intMul 10 1000 (by norm_num)]
    norm_num
  norm_num [products_clean, ceRawProducts, productKept, normalizeProduct, h10,
    List.filter_cons, List.filter_nil, List.dedup_nil, List.dedup_cons_of_not_mem]
  decide

theorem sales_enriched_ce :
    sales_enriched ceRawSales ceCC (products_clean ceRawProducts) = ceSE := by
  rw [products_clean_ce]
  norm_num [sales_enriched, ceRawSales, ceCC, ceSE, ceEnriched, enrichSale,
    enrichedRowOf, optEqInt, List.flatMap_cons, List.flatMap_nil,
    List.filterMap_cons]

theorem countryJoin_ce : countryJoin ceSE ceCC =
    [(ceEnriched, ⟨some 1, some "Al", some "FR", some "a@x"⟩),
     (ceEnriched, ⟨some 1, some "Al", some "FR", some "b@x"⟩),
     (ceEnriched, ⟨some 1, some "Al", some "FR", some "a@x"⟩),
     (ceEnriched, ⟨some 1, some "Al", some "FR", some "b@x"⟩)] := by
  simp [countryJoin, ceSE, ceCC, ceEnriched, optEqInt]

theorem sales_by_country_ce :
    sales_by_country ceSE ceCC = [⟨some "FR", some 40, 1, 1⟩] := by
  simp only [sales_by_country, countryJoin_ce]
  norm_num [ceEnriched, sqlSumQ, List.dedup_cons_of_mem, List.dedup_cons_of_not_mem,
    List.dedup_nil, List.filter_cons, List.filter_nil, List.filterMap_cons]

/-- C6 counterexample: with two raw customers sharing id 1 (they differ only
in email, so both survive the full-row DISTINCT), `customers_clean` holds
two rows for id 1; the single sale therefore yields two `sales_enriched`
rows summing to 20 for FR, while the Gold re-join against `customers_clean`
counts each row twice, storing `total_sales = 40 ≠ 20`. -/
theorem claimC6_counterexample :
    customers_clean ceRawCustomers = ceCC
    ∧ sales_enriched ceRawSales ceCC (products_clean ceRawProducts) = ceSE
    ∧ ¬ claimC6Statement ceSE ceCC := by
  refine ⟨by decide, sales_enriched_ce, ?_⟩
  intro hcl
  have h1 := hcl ⟨some "FR", some 40, 1, 1⟩
    (by rw [sales_by_country_ce]; exact List.mem_cons_self _ _)
  have h1' : (some (40:ℚ) : Option ℚ)
      = sqlSumQ ((ceSE.filter (fun s => decide (s.country = some "FR"))).map
          (fun s => s.total_amount)) := h1
  have h2 : sqlSumQ ((ceSE.filter (fun s => decide (s.country = some "FR"))).map
      (fun s => s.total_amount)) = some ((10:ℚ) + (10 + 0)) := rfl
  rw [h2] at h1'
  exact absurd (Option.some.inj h1') (by norm_num)

/-! ## C9: the metrics reporter -/

theorem send_metrics_err1 (e1 : String) (q2 : Except String (Option ℚ))
    (q3 : Except String Nat) :
    send_metrics_notification ⟨Except.error e1, q2, q3⟩ = Except.error e1 := rfl

theorem send_metrics_err2 (v1 : Nat) (e2 : String) (q3 : Except String Nat) :
    send_metrics_notification ⟨Except.ok v1, Except.error e2, q3⟩
      = Except.error e2 := rfl

theorem send_metrics_err3 (v1 : Nat) (v2 : Option ℚ) (e3 : String) :
    send_metrics_notification ⟨Except.ok v1, Except.ok v2, Except.error e3⟩
      = Except.error e3 := rfl

theorem send_metrics_ok (v1 : Nat) (v2 : Option ℚ) (v3 : Nat) :
    send_metrics_notification ⟨Except.ok v1, Except.ok v2, Except.ok v3⟩
      = Except.ok ⟨v1, v2.getD 0, v3⟩ := rfl

/-- C9 amended: the reporter reads the country count, the revenue sum
(turning a NULL `SUM` into 0 via `or 0`) and the product count from the
Gold tables and emits exactly that summary; but a failing read propagates
unhandled — the reporter returns that read's error, so the task and with
it the DAG run fail (the failure is surfaced as the raised error), rather
than being non-fatal to the pipeline's success status. -/
theorem send_metrics_spec :
    (∀ g : GoldDB, send_metrics_notification (connFor g)
        = Except.ok ⟨g.sales_by_country.length,
            (sqlSumQ (g.sales_by_country.map (fun r => r.total_sales))).getD 0,
            g.top_products.length⟩)
    ∧ (∀ g : GoldDB, g.sales_by_country = [] →
        send_metrics_notification (connFor g)
          = Except.ok ⟨0, 0, g.top_products.length⟩)
    ∧ (∀ (conn : SnowflakeConn) (e : String),
        send_metrics_notification conn = Except.error e →
        (conn.count_sales_by_country = Except.error e
          ∨ conn.sum_total_sales = Except.error e
          ∨ conn.count_top_products = Except.error e)
        ∧ ∀ upstream : List Bool,
            dagRunSuccess upstream (send_metrics_notification conn) = false) := by
  refine ⟨fun g => rfl, ?_, ?_⟩
  · intro g hg
    have hred : send_metrics_notification (connFor g)
        = Except.ok ⟨g.sales_by_country.length,
            (sqlSumQ (g.sales_by_country.map (fun r => r.total_sales))).getD 0,
            g.top_products.length⟩ := rfl
    rw [hred, hg]
    simp [sqlSumQ]
  · intro conn e he
    constructor
    · rcases conn with ⟨q1, q2, q3⟩
      cases q1 with
      | error e1 =>
        rw [send_metrics_err1] at he
        injection he with h
        subst h
        exact Or.inl rfl
      | ok v1 =>
        cases q2 with
        | error e2 =>
          rw [send_metrics_err2] at he
          injection he with h
          subst h
          exact Or.inr (Or.inl rfl)
        | ok v2 =>
          cases q3 with
          | error e3 =>
            rw [send_metrics_err3] at he
            injection he with h
            subst h
            exact Or.inr (Or.inr rfl)
          | ok v3 =>
            rw [send_metrics_ok] at he
            cases he
    · intro upstream
      simp [dagRunSuccess, taskSucceeded, he]

/-- C9 counterexample: on a connection whose first Gold read fails, the
reporter raises, the reporter task fails, and the DAG run is not
successful even though every upstream task succeeded — contradicting the
claim that a read failure is non-fatal to the pipeline's success status. -/
theorem claimC9_counterexample : ¬ claimC9Statement := by
  intro h
  have h2 := h.2 badConn [true] rfl
  have hfalse : dagRunSuccess [true] (send_metrics_notification badConn)
      = false := rfl
  rw [hfalse] at h2
  cases h2

end Pipeline
